import Mathlib

/-
Verification development for the LonelyMovie repository.

The definitions below are a shallow embedding of the presentation layer
(src/src/App.jsx and src/src/VideoPlayer.jsx) and, where the repository
ships no code for a component, a model built from the design document.
JavaScript state updates are modelled by explicit state passing; fetch
results are supplied as oracle values so the pure control flow of each
handler becomes a Lean function.
-/

namespace LonelyMovie

/-! ## Generic string helpers (JS string operations used by the code) -/

/-- Boolean test that the second list is an initial segment of the first. -/
def listStartsWith : List Char → List Char → Bool
  | _, [] => true
  | [], _ :: _ => false
  | a :: as, b :: bs => a == b && listStartsWith as bs

/-- Boolean test that pat occurs contiguously inside l. -/
def listHasInfix : List Char → List Char → Bool
  | [], pat => pat.isEmpty
  | l@(_ :: as), pat => listStartsWith l pat || listHasInfix as pat

/-- String wrapper around listHasInfix: does s contain pat as a substring. -/
def strContains (s pat : String) : Bool :=
  listHasInfix s.data pat.data

/-! ## Data model of the presentation layer -/

/-- A title record as consumed by App.jsx: title text, IMDB identifier and
media type, one of movie or tv. -/
structure Movie where
  title : String
  imdb_id : String
  type : String
deriving DecidableEq

/-- One entry of the streamingSources array of App.jsx (lines 39 to 45). -/
structure StreamingSource where
  id : String
  name : String
  icon : String
  speed : String
deriving DecidableEq

/-- The five streaming sources declared in App.jsx lines 39 to 45. -/
def streamingSources : List StreamingSource :=
  [ { id := "vidsrc.me", name := "VidSrc.me", icon := "⚡", speed := "Fastest" },
    { id := "vidsrc.to", name := "VidSrc.to", icon := "🚀", speed := "Very Fast" },
    { id := "embed.su", name := "Embed.su", icon := "💨", speed := "Fast" },
    { id := "2embed.cc", name := "2Embed", icon := "🎬", speed := "Good" },
    { id := "smashystream", name := "Smashystream", icon := "🔥", speed := "Fast" } ]

/-- The ids of the declared streaming sources. -/
def knownSourceIds : List String :=
  streamingSources.map (fun s => s.id)

/-- Embedding of getEmbedUrl (App.jsx lines 192 to 227): given the selected
movie (null modelled as Option.none) and a source id, build the embed URL.
The JS guard falsiness of selectedMovie.imdb_id is the empty string. -/
def getEmbedUrl (selectedMovie : Option Movie) (sourceId : String) : String :=
  match selectedMovie with
  | Option.none => ""
  | Option.some m =>
    if m.imdb_id = "" then ""
    else
      let imdbId := m.imdb_id
      let movieType := m.type
      if sourceId = "vidsrc.to" then
        if movieType = "tv" then "https://vidsrc.to/embed/tv/" ++ imdbId ++ "/1/1"
        else "https://vidsrc.to/embed/movie/" ++ imdbId
      else if sourceId = "vidsrc.me" then
        if movieType = "tv" then
          "https://vidsrc.me/embed/tv?imdb=" ++ imdbId ++ "&season=1&episode=1"
        else "https://vidsrc.me/embed/movie?imdb=" ++ imdbId
      else if sourceId = "embed.su" then
        if movieType = "tv" then "https://embed.su/embed/tv/" ++ imdbId ++ "/1/1"
        else "https://embed.su/embed/movie/" ++ imdbId
      else if sourceId = "2embed.cc" then
        "https://www.2embed.cc/embed/" ++ imdbId
      else if sourceId = "smashystream" then
        if movieType = "tv" then
          "https://player.smashy.stream/tv/" ++ imdbId ++ "?s=1&e=1"
        else "https://player.smashy.stream/movie/" ++ imdbId
      else
        "https://vidsrc.to/embed/movie/" ++ imdbId

/-! ## Player state and stream extraction (App.jsx lines 29, 30, 324 to 355) -/

/-- The two player modes of App.jsx line 29. -/
inductive PlayerMode where
  | iframe
  | direct
deriving DecidableEq

/-- The JSON body returned by the extract-stream endpoint, as read by
extractStream: stream_url may be absent (Option.none), type and source are
strings. -/
structure StreamData where
  stream_url : Option String
  type : String
  source : String
deriving DecidableEq

/-- The player-related component state touched by extractStream: the
playerMode and streamData useState cells. -/
structure PlayerState where
  playerMode : PlayerMode
  streamData : Option StreamData
deriving DecidableEq

/-- The initial player state of App.jsx lines 29 and 30: iframe mode with no
stream data; also the state restored by switchToIframeMode. -/
def iframeInit : PlayerState :=
  { playerMode := PlayerMode.iframe, streamData := Option.none }

/-- JS truthiness of the stream_url field: present and not the empty string. -/
def jsTruthy : Option String → Bool
  | Option.none => false
  | Option.some s => s != ""

/-- JS truthiness of the selectedMovie?.imdb_id guard of App.jsx line 325. -/
def hasImdb : Option Movie → Bool
  | Option.none => false
  | Option.some m => m.imdb_id != ""

/-- Outcome of the fetch call inside extractStream, supplied as an oracle:
either the fetch threw, or a response arrived with its ok flag and parsed
JSON body. -/
inductive FetchResult where
  | fetchErr
  | response (ok : Bool) (data : StreamData)
deriving DecidableEq

/-- Embedding of extractStream (App.jsx lines 324 to 355) acting on the
player state: the early return when the selected movie lacks an imdb_id, the
response.ok test, and the stream_url / type guard deciding the switch to
direct mode. Alerts and the isExtractingStream spinner have no effect on the
player state and are omitted. -/
def extractStream (selectedMovie : Option Movie) (st : PlayerState)
    (r : FetchResult) : PlayerState :=
  if hasImdb selectedMovie then
    match r with
    | FetchResult.fetchErr => st
    | FetchResult.response ok data =>
      if ok then
        if jsTruthy data.stream_url && data.type != "iframe" then
          { st with streamData := Option.some data, playerMode := PlayerMode.direct }
        else st
      else st
  else st

/-- The success condition of the claim: the response is HTTP-ok, carries a
non-empty stream_url, and its type is not iframe. -/
def extractOk : FetchResult → Bool
  | FetchResult.fetchErr => false
  | FetchResult.response ok data =>
      ok && (jsTruthy data.stream_url && data.type != "iframe")

/-- The base URL constant of App.jsx line 5. -/
def API_URL : String := "http://127.0.0.1:8000"

/-- The request URL built by extractStream (App.jsx lines 330 to 332) from
the selected movie id and the active source. -/
def extractStreamRequestUrl (imdbId activeSource : String) : String :=
  API_URL ++ "/api/extract-stream/" ++ imdbId ++ "?source=" ++ activeSource

/-! ## Direct player rendering (App.jsx lines 563 to 572, VideoPlayer.jsx) -/

/-- The props App.jsx hands to the VideoPlayer component. -/
structure PlayerProps where
  src : String
  type : String
deriving DecidableEq

/-- Embedding of the render decision of App.jsx lines 563 to 572: the
VideoPlayer is mounted exactly when the mode is direct and streamData has a
truthy stream_url; its src is the stream_url and its type is the MIME type
chosen by the m3u8 test of line 567. Option.none means the iframe renders. -/
def directPlayerProps (st : PlayerState) : Option PlayerProps :=
  match st.playerMode, st.streamData with
  | PlayerMode.direct, Option.some d =>
    match d.stream_url with
    | Option.some u =>
      if u != "" then
        Option.some
          { src := u,
            type := if d.type = "m3u8" then "application/x-mpegURL" else "video/mp4" }
      else Option.none
    | Option.none => Option.none
  | _, _ => Option.none

/-! ## Autocomplete (App.jsx lines 95 to 118) -/

/-- Outcome of the fetch call inside fetchSuggestions, supplied as an
oracle; the suggestions field of the parsed body may be absent. -/
inductive AutoResult (α : Type) where
  | fetchErr
  | response (ok : Bool) (suggestions : Option (List α))
deriving DecidableEq

/-- Embedding of fetchSuggestions (App.jsx lines 95 to 118). The first
component records whether a network request was issued; the second is the
suggestions state written by the handler. The JS guard !query matches the
empty string, which the length test also covers. -/
def fetchSuggestions {α : Type} (query : String) (r : AutoResult α) :
    Bool × List α :=
  if query = "" || query.length < 2 then
    (false, [])
  else
    match r with
    | AutoResult.fetchErr => (true, [])
    | AutoResult.response ok sug => if ok then (true, sug.getD []) else (true, [])

/-! ## Active source transitions (App.jsx lines 21, 56 to 61, 264 to 268) -/

/-- Events that write the activeSource state cell: the mount effect applying
an optional ?source= URL parameter (App.jsx lines 56 to 61), and a click on
one of the source tabs, which calls handleSourceChange with the id of an
entry of streamingSources (App.jsx lines 520 to 525). -/
inductive SourceEvent where
  | urlParam (s : Option String)
  | uiSourceChange (i : Fin streamingSources.length)

/-- One activeSource transition. The urlParam branch mirrors the membership
check streamingSources.find of line 58; the tab click stores the clicked
entry's id as handleSourceChange does. -/
def stepSource (cur : String) : SourceEvent → String
  | SourceEvent.urlParam Option.none => cur
  | SourceEvent.urlParam (Option.some s) =>
      if (streamingSources.find? (fun t => t.id == s)).isSome then s else cur
  | SourceEvent.uiSourceChange i => (streamingSources.get i).id

/-- The activeSource value after a sequence of events, starting from the
initial value of App.jsx line 21. -/
def runSource (evs : List SourceEvent) : String :=
  evs.foldl stepSource "vidsrc.me"

/-! ## Query-string decomposition of a request URL -/

/-- The characters after the first question mark of a URL, the query part. -/
def afterQ : List Char → List Char
  | [] => []
  | c :: cs => if c = '?' then cs else afterQ cs

/-- Split a query string on ampersands into its parameter segments. -/
def splitAmp : List Char → List (List Char)
  | [] => [[]]
  | c :: cs =>
    if c = '&' then [] :: splitAmp cs
    else
      match splitAmp cs with
      | [] => [[c]]
      | g :: gs => (c :: g) :: gs

/-- The key part of one query parameter segment: the characters before the
first equals sign. -/
def keyOf : List Char → List Char
  | [] => []
  | c :: cs => if c = '=' then [] else c :: keyOf cs

/-- The list of query parameter keys of a URL. -/
def queryKeys (url : String) : List (List Char) :=
  (splitAmp (afterQ url.data)).map keyOf

/-- Formalization of the episode-parameterized URL shape of the design
document: the URL carries the default season 1 episode 1 coordinates in one
of the syntaxes the five sources use: path segments /1/1, query pairs
season=1 and episode=1, or short query pairs s=1 and e=1. -/
def episodeParameterized (url : String) : Bool :=
  strContains url "season=1&episode=1" || strContains url "/1/1"
    || strContains url "s=1&e=1"

/-! ## Network Capture Filter

The Stream Extraction Engine is not part of the shipped sources; only the
presentation layer is under src/. The capture filter below is modelled from
the design document, section 4.3 and section 3. -/

/-- Modelled from the spec: the tagged-variant matching rule patterns of the
Source Profile Registry, predicates over an exchange URL and content type
such as path contains .m3u8 or content-type equals a given value. -/
inductive RulePattern where
  | urlContains (pat : String)
  | contentTypeEquals (ct : String)
deriving DecidableEq

/-- Modelled from the spec: the media subtype a matching rule implies. -/
inductive MediaSubtype where
  | hls
  | mp4
deriving DecidableEq

/-- Modelled from the spec: one ordered matching rule of a SourceProfile,
a pattern tagged with the media subtype it implies. -/
structure CaptureRule where
  pat : RulePattern
  subtype : MediaSubtype
deriving DecidableEq

/-- Modelled from the spec: one observed request/response pair during a
session: URL, method, response content type, response status, byte-size
hint. -/
structure NetworkExchange where
  url : String
  method : String
  contentType : String
  status : Nat
  size : Nat
deriving DecidableEq

/-- Modelled from the spec: the kind of an extraction result. -/
inductive DescriptorKind where
  | manifest
  | file
  | none
deriving DecidableEq

/-- Modelled from the spec: the StreamDescriptor extraction result: kind,
resolved URL, media subtype when present. -/
structure StreamDescriptor where
  kind : DescriptorKind
  url : String
  subtype : Option MediaSubtype
deriving DecidableEq

/-- Modelled from the spec: the descriptor returned when the deadline
elapses with no match. -/
def noneDescriptor : StreamDescriptor :=
  { kind := DescriptorKind.none, url := "", subtype := Option.none }

/-- Modelled from the spec: whether one rule matches one exchange. -/
def matchesRule (r : CaptureRule) (e : NetworkExchange) : Bool :=
  match r.pat with
  | RulePattern.urlContains p => strContains e.url p
  | RulePattern.contentTypeEquals c => e.contentType == c

/-- Modelled from the spec: the rules are evaluated in fixed declared order
and the first satisfying rule determines the result. -/
def firstMatch (rules : List CaptureRule) (e : NetworkExchange) :
    Option CaptureRule :=
  rules.find? (fun r => matchesRule r e)

/-- Modelled from the spec: the manifest or file descriptor built from a
matching exchange; an hls rule yields a manifest, an mp4 rule a file, the
resolved URL is the exchange URL. -/
def descriptorFrom (r : CaptureRule) (e : NetworkExchange) : StreamDescriptor :=
  { kind := match r.subtype with
      | MediaSubtype.hls => DescriptorKind.manifest
      | MediaSubtype.mp4 => DescriptorKind.file,
    url := e.url,
    subtype := Option.some r.subtype }

/-- Modelled from the spec: capture consumes the exchanges of one session in
true arrival order; on the first exchange matched by some rule it stops and
returns the descriptor built from that exchange; the list holds exactly the
exchanges observed before the deadline, so reaching its end is the deadline
elapsing with no match, which returns the none descriptor. -/
def capture (rules : List CaptureRule) : List NetworkExchange → StreamDescriptor
  | [] => noneDescriptor
  | e :: rest =>
    match firstMatch rules e with
    | Option.some r => descriptorFrom r e
    | Option.none => capture rules rest

/-! ## Helper lemmas -/

/-- A list starts with itself, whatever follows. -/
theorem listStartsWith_append_self (p b : List Char) :
    listStartsWith (p ++ b) p = true := by
  induction p with
  | nil => cases b <;> rfl
  | cons c cs ih => simp [listStartsWith, ih]

/-- An infix of the right part of an append is an infix of the append. -/
theorem listHasInfix_append_right (a b p : List Char)
    (h : listHasInfix b p = true) : listHasInfix (a ++ b) p = true := by
  induction a with
  | nil => simpa using h
  | cons c cs ih =>
    cases hb : listHasInfix (cs ++ b) p with
    | true => simp [listHasInfix, hb]
    | false => exact absurd (ih) (by simp [hb])

/-- A pattern sitting between two contexts is an infix of the whole. -/
theorem listHasInfix_append_mid (a p b : List Char) :
    listHasInfix (a ++ (p ++ b)) p = true := by
  apply listHasInfix_append_right
  cases p with
  | nil => cases b <;> simp [listHasInfix, listStartsWith]
  | cons c cs =>
    have hsw := listStartsWith_append_self (c :: cs) b
    simp only [List.cons_append] at hsw
    simp [listHasInfix, hsw]

/-- A list ends with a copy of the pattern, so the pattern is an infix. -/
theorem listHasInfix_append_end (a p : List Char) :
    listHasInfix (a ++ p) p = true := by
  have := listHasInfix_append_mid a p []
  simpa using this

/-- String-level corollary: a pattern between two contexts is contained. -/
theorem strContains_append_mid (a p b : String) :
    strContains (a ++ p ++ b) p = true := by
  unfold strContains
  rw [String.data_append, String.data_append, List.append_assoc]
  exact listHasInfix_append_mid a.data p.data b.data

/-- String-level corollary: a trailing copy of the pattern is contained. -/
theorem strContains_append_end (a p : String) :
    strContains (a ++ p) p = true := by
  unfold strContains
  rw [String.data_append]
  exact listHasInfix_append_end a.data p.data

/-- String-level corollary: containment survives prepending a context. -/
theorem strContains_append_right (a b p : String)
    (h : strContains b p = true) : strContains (a ++ b) p = true := by
  unfold strContains at h ⊢
  rw [String.data_append]
  exact listHasInfix_append_right a.data b.data p.data h

/-- afterQ skips a question-mark-free context entirely. -/
theorem afterQ_skip (a b : List Char) (h : '?' ∉ a) :
    afterQ (a ++ b) = afterQ b := by
  induction a with
  | nil => rfl
  | cons c cs ih =>
    have hc : c ≠ '?' := fun hc => h (hc ▸ List.mem_cons_self c cs)
    simp only [List.cons_append, afterQ, if_neg hc]
    exact ih (fun hm => h (List.mem_cons_of_mem c hm))

/-- afterQ skips a question-mark-free context and returns what follows the
first question mark. -/
theorem afterQ_append (l1 l2 : List Char) (h : '?' ∉ l1) :
    afterQ (l1 ++ '?' :: l2) = l2 := by
  induction l1 with
  | nil => simp [afterQ]
  | cons c cs ih =>
    have hc : c ≠ '?' := fun hc => h (hc ▸ List.mem_cons_self c cs)
    simp only [List.cons_append, afterQ, if_neg hc]
    exact ih (fun hm => h (List.mem_cons_of_mem c hm))

/-- An ampersand-free query is a single parameter segment. -/
theorem splitAmp_no_amp (l : List Char) (h : '&' ∉ l) :
    splitAmp l = [l] := by
  induction l with
  | nil => rfl
  | cons c cs ih =>
    have hc : c ≠ '&' := fun hc => h (hc ▸ List.mem_cons_self c cs)
    have hcs := ih (fun hm => h (List.mem_cons_of_mem c hm))
    simp [splitAmp, hc, hcs]

/-- keyOf returns the equals-free context before the first equals sign. -/
theorem keyOf_append (a b : List Char) (h : '=' ∉ a) :
    keyOf (a ++ '=' :: b) = a := by
  induction a with
  | nil => simp [keyOf]
  | cons c cs ih =>
    have hc : c ≠ '=' := fun hc => h (hc ▸ List.mem_cons_self c cs)
    simp only [List.cons_append, keyOf, if_neg hc]
    exact congrArg (c :: ·) (ih (fun hm => h (List.mem_cons_of_mem c hm)))

/-- capture ignores a block of exchanges none of which matches a rule. -/
theorem capture_append_no_match (rules : List CaptureRule)
    (pre rest : List NetworkExchange)
    (h : ∀ x ∈ pre, firstMatch rules x = Option.none) :
    capture rules (pre ++ rest) = capture rules rest := by
  induction pre with
  | nil => rfl
  | cons e es ih =>
    have he : firstMatch rules e = Option.none := h e (List.mem_cons_self e es)
    have hes := ih (fun x hx => h x (List.mem_cons_of_mem e hx))
    simp [capture, he, hes]

/-- capture returns the none descriptor on a fully non-matching stream. -/
theorem capture_no_match (rules : List CaptureRule)
    (l : List NetworkExchange)
    (h : ∀ x ∈ l, firstMatch rules x = Option.none) :
    capture rules l = noneDescriptor := by
  have := capture_append_no_match rules l [] h
  simpa [capture] using this

/-! ## Claim theorems -/

/-- C1: starting from iframe mode with no stream data, extractStream
switches to direct playback with streamData set to the response body exactly
when the response is HTTP-ok, carries a non-empty stream_url, and its type
field is not iframe; in every other case the player state stays at the
iframe initial state. -/
theorem extractStream_direct_iff (sm : Option Movie) (r : FetchResult)
    (hsm : hasImdb sm = true) :
    ((extractStream sm iframeInit r).playerMode = PlayerMode.direct
        ↔ extractOk r = true)
    ∧ (extractOk r = false → extractStream sm iframeInit r = iframeInit)
    ∧ (∀ d, r = FetchResult.response true d → extractOk r = true →
        extractStream sm iframeInit r
          = { playerMode := PlayerMode.direct, streamData := Option.some d }) := by
  cases r with
  | fetchErr => simp [extractStream, extractOk, hsm, iframeInit]
  | response ok data =>
    cases ok with
    | false => simp [extractStream, extractOk, hsm, iframeInit]
    | true =>
      cases hg : (jsTruthy data.stream_url && data.type != "iframe") with
      | false => simp [extractStream, extractOk, hsm, iframeInit, hg]
      | true => simp [extractStream, extractOk, hsm, iframeInit, hg]

/-- C1 witness: a concrete ok response with a non-empty m3u8 stream_url
switches the player to direct mode holding that response. -/
theorem extractStream_direct_iff_witness :
    extractStream (Option.some ⟨"Inception", "tt1375666", "movie"⟩) iframeInit
        (FetchResult.response true
          ⟨Option.some "https://cdn.example/master.m3u8", "m3u8", "vidsrc.me"⟩)
      = { playerMode := PlayerMode.direct,
          streamData := Option.some
            ⟨Option.some "https://cdn.example/master.m3u8", "m3u8", "vidsrc.me"⟩ } :=
  (extractStream_direct_iff (Option.some ⟨"Inception", "tt1375666", "movie"⟩)
      (FetchResult.response true
        ⟨Option.some "https://cdn.example/master.m3u8", "m3u8", "vidsrc.me"⟩)
      (by decide)).2.2 _ rfl (by decide)

/-- C2: whenever the extraction outcome is not a success (fetch exception,
non-ok HTTP response, or a none/iframe body), extractStream leaves the whole
player state exactly as it was before the call, whatever that state is. -/
theorem extractStream_failure_atomic (sm : Option Movie) (st : PlayerState)
    (r : FetchResult) (h : extractOk r = false) :
    extractStream sm st r = st := by
  cases hm : hasImdb sm with
  | false => simp [extractStream, hm]
  | true =>
    cases r with
    | fetchErr => simp [extractStream, hm]
    | response ok data =>
      cases ok with
      | false => simp [extractStream, hm]
      | true =>
        have hg : (jsTruthy data.stream_url && data.type != "iframe") = false := by
          simpa [extractOk] using h
        simp [extractStream, hm, hg]

/-- C2 witness: an iframe-typed body at a concrete pre-call state leaves the
state untouched. -/
theorem extractStream_failure_atomic_witness :
    extractStream (Option.some ⟨"Inception", "tt1375666", "movie"⟩) iframeInit
        (FetchResult.response true ⟨Option.none, "iframe", "vidsrc.me"⟩)
      = iframeInit :=
  extractStream_failure_atomic (Option.some ⟨"Inception", "tt1375666", "movie"⟩)
    iframeInit (FetchResult.response true ⟨Option.none, "iframe", "vidsrc.me"⟩)
    (by decide)

/-- C7: after a successful extraction, the direct player receives src equal
to the returned stream_url and a MIME type chosen deterministically from the
returned type field: m3u8 plays as application/x-mpegURL, any other type as
video/mp4. -/
theorem videoPlayer_mime_map (sm : Option Movie) (d : StreamData) (u : String)
    (hsm : hasImdb sm = true) (hu : d.stream_url = Option.some u)
    (hne : u ≠ "") (ht : d.type ≠ "iframe") :
    directPlayerProps (extractStream sm iframeInit (FetchResult.response true d))
      = Option.some
          { src := u,
            type := if d.type = "m3u8" then "application/x-mpegURL" else "video/mp4" } := by
  have hj : jsTruthy (Option.some u) = true := by simp [jsTruthy, hne]
  have hb : (d.type != "iframe") = true := by simp [ht]
  simp [extractStream, hsm, hu, hj, hb, directPlayerProps, iframeInit, hne]

/-- C7 witness: an m3u8 result plays as HLS and an mp4 result as plain
video, both with the exact returned URL. -/
theorem videoPlayer_mime_map_witness :
    directPlayerProps (extractStream (Option.some ⟨"Inception", "tt1375666", "movie"⟩)
        iframeInit (FetchResult.response true
          ⟨Option.some "https://cdn.example/v.m3u8", "m3u8", "vidsrc.me"⟩))
      = Option.some { src := "https://cdn.example/v.m3u8", type := "application/x-mpegURL" }
    ∧ directPlayerProps (extractStream (Option.some ⟨"Inception", "tt1375666", "movie"⟩)
        iframeInit (FetchResult.response true
          ⟨Option.some "https://cdn.example/v.mp4", "mp4", "vidsrc.me"⟩))
      = Option.some { src := "https://cdn.example/v.mp4", type := "video/mp4" } := by
  constructor
  · have h := videoPlayer_mime_map (Option.some ⟨"Inception", "tt1375666", "movie"⟩)
      ⟨Option.some "https://cdn.example/v.m3u8", "m3u8", "vidsrc.me"⟩
      "https://cdn.example/v.m3u8" (by decide) rfl (by decide) (by decide)
    simpa using h
  · have h := videoPlayer_mime_map (Option.some ⟨"Inception", "tt1375666", "movie"⟩)
      ⟨Option.some "https://cdn.example/v.mp4", "mp4", "vidsrc.me"⟩
      "https://cdn.example/v.mp4" (by decide) rfl (by decide) (by decide)
    simpa using h

/-- C9: an autocomplete query of fewer than two characters issues no network
request and sets the suggestions list to empty; a query of length at least
two always issues the request. -/
theorem fetchSuggestions_length_guard {α : Type} (query : String)
    (r : AutoResult α) :
    (query.length < 2 → fetchSuggestions query r = (false, []))
    ∧ (2 ≤ query.length → (fetchSuggestions query r).1 = true) := by
  constructor
  · intro h
    simp [fetchSuggestions, h]
  · intro h
    have h0 : ¬ query = "" := fun he => by subst he; exact absurd h (by decide)
    have h1 : ¬ query.length < 2 := by omega
    cases r with
    | fetchErr => simp [fetchSuggestions, h0, h1]
    | response ok sug => cases ok <;> simp [fetchSuggestions, h0, h1]

/-- C9 witness: a one-character query fetches nothing and clears the list; a
two-character query issues the request. -/
theorem fetchSuggestions_length_guard_witness :
    fetchSuggestions "a" (AutoResult.fetchErr : AutoResult Nat) = (false, [])
    ∧ (fetchSuggestions "ab" (AutoResult.fetchErr : AutoResult Nat)).1 = true :=
  ⟨(fetchSuggestions_length_guard "a" (AutoResult.fetchErr : AutoResult Nat)).1 (by decide),
   (fetchSuggestions_length_guard "ab" (AutoResult.fetchErr : AutoResult Nat)).2 (by decide)⟩

/-- C10: for every source id, getEmbedUrl returns the empty string when no
movie is selected or when the selected movie has an empty imdb_id, so no
embed URL is ever built from a missing title identifier. -/
theorem getEmbedUrl_missing_title (sourceId : String) :
    getEmbedUrl Option.none sourceId = ""
    ∧ ∀ m : Movie, m.imdb_id = "" → getEmbedUrl (Option.some m) sourceId = "" := by
  refine ⟨rfl, ?_⟩
  intro m hm
  simp [getEmbedUrl, hm]

/-- C10 witness: a selected movie with an empty imdb_id yields the empty
URL on a known source. -/
theorem getEmbedUrl_missing_title_witness :
    getEmbedUrl (Option.some ⟨"Unknown", "", "movie"⟩) "vidsrc.me" = "" :=
  (getEmbedUrl_missing_title "vidsrc.me").2 ⟨"Unknown", "", "movie"⟩ rfl

/-- C3: for a fixed rule list, capture is insensitive to any block of
non-matching exchanges before the rest of the stream; the descriptor it
returns is built from the first exchange some rule matches; and when the
deadline elapses, that is when the observed stream is exhausted without a
match, it returns the none descriptor. -/
theorem capture_deterministic (rules : List CaptureRule)
    (pre rest : List NetworkExchange)
    (hpre : ∀ x ∈ pre, firstMatch rules x = Option.none) :
    capture rules (pre ++ rest) = capture rules rest
    ∧ (∀ e r rest2, firstMatch rules e = Option.some r →
        capture rules (pre ++ e :: rest2) = descriptorFrom r e)
    ∧ capture rules pre = noneDescriptor := by
  refine ⟨capture_append_no_match rules pre rest hpre, ?_,
    capture_no_match rules pre hpre⟩
  intro e r rest2 he
  rw [capture_append_no_match rules pre (e :: rest2) hpre]
  simp [capture, he]

/-- C3 witness: with a single m3u8 rule, one preceding ad exchange is
skipped and the descriptor is built from the first manifest exchange, even
though another manifest follows. -/
theorem capture_deterministic_witness :
    capture [⟨RulePattern.urlContains ".m3u8", MediaSubtype.hls⟩]
        ([⟨"https://ads.example/banner.js", "GET", "text/javascript", 200, 512⟩]
          ++ ⟨"https://cdn.example/master.m3u8", "GET",
                "application/vnd.apple.mpegurl", 200, 900⟩
            :: [⟨"https://cdn.example/variant.m3u8", "GET",
                  "application/vnd.apple.mpegurl", 200, 700⟩])
      = descriptorFrom ⟨RulePattern.urlContains ".m3u8", MediaSubtype.hls⟩
          ⟨"https://cdn.example/master.m3u8", "GET",
            "application/vnd.apple.mpegurl", 200, 900⟩ :=
  (capture_deterministic [⟨RulePattern.urlContains ".m3u8", MediaSubtype.hls⟩]
      [⟨"https://ads.example/banner.js", "GET", "text/javascript", 200, 512⟩]
      [] (by decide)).2.1
    ⟨"https://cdn.example/master.m3u8", "GET",
      "application/vnd.apple.mpegurl", 200, 900⟩
    ⟨RulePattern.urlContains ".m3u8", MediaSubtype.hls⟩
    [⟨"https://cdn.example/variant.m3u8", "GET",
      "application/vnd.apple.mpegurl", 200, 700⟩]
    (by decide)

/-- C8: starting from the initial value vidsrc.me, every sequence of
activeSource writes, namely guarded URL parameter application on mount and
source-tab clicks that pass ids of declared sources, keeps activeSource
inside the five declared source ids. -/
theorem activeSource_always_known (evs : List SourceEvent) :
    runSource evs ∈ knownSourceIds := by
  have hstep : ∀ cur ev, cur ∈ knownSourceIds → stepSource cur ev ∈ knownSourceIds := by
    intro cur ev hcur
    cases ev with
    | urlParam s =>
      cases s with
      | none => exact hcur
      | some v =>
        cases hf : (streamingSources.find? (fun t => t.id == v)).isSome with
        | false => simpa [stepSource, hf] using hcur
        | true =>
          rcases Option.isSome_iff_exists.mp hf with ⟨t, ht⟩
          have hmem := List.mem_of_find?_eq_some ht
          have hp : t.id = v := by simpa using List.find?_some ht
          have : v ∈ knownSourceIds := hp ▸ List.mem_map_of_mem (fun s => s.id) hmem
          simpa [stepSource, hf] using this
    | uiSourceChange i =>
      exact List.mem_map_of_mem (fun s => s.id) (streamingSources.get_mem i.1 i.2)
  have main : ∀ l cur, cur ∈ knownSourceIds →
      List.foldl stepSource cur l ∈ knownSourceIds := by
    intro l
    induction l with
    | nil => intro cur h; simpa using h
    | cons e es ih => intro cur h; exact ih _ (hstep cur e h)
  exact main evs "vidsrc.me" (by decide)

/-- C4 counterexample: the id dummysource is not in the declared source
table, yet getEmbedUrl does not fail for it: it produces the vidsrc.to movie
embed URL for the selected title, a silent fallback. -/
theorem getEmbedUrl_unknown_source_cex :
    knownSourceIds.contains "dummysource" = false
    ∧ getEmbedUrl (Option.some ⟨"Inception", "tt1375666", "movie"⟩) "dummysource"
        = "https://vidsrc.to/embed/movie/tt1375666" := by
  constructor
  · decide
  · decide

/-- C4 amended: for every source id outside the declared table and every
selected movie with a non-empty imdb_id, getEmbedUrl does not fail with
NotFound: the default switch branch silently falls back to the vidsrc.to
movie embed URL of the title. -/
theorem getEmbedUrl_unknown_source_fallback (sourceId : String) (m : Movie)
    (hs : sourceId ∉ knownSourceIds) (hm : m.imdb_id ≠ "") :
    getEmbedUrl (Option.some m) sourceId
      = "https://vidsrc.to/embed/movie/" ++ m.imdb_id := by
  simp only [knownSourceIds, streamingSources, List.map_cons, List.map_nil,
    List.mem_cons, List.not_mem_nil, or_false, not_or] at hs
  obtain ⟨h1, h2, h3, h4, h5⟩ := hs
  simp [getEmbedUrl, hm, h1, h2, h3, h4, h5]

/-- C4 amended witness: a concrete unknown id falls back to the vidsrc.to
movie template. -/
theorem getEmbedUrl_unknown_source_fallback_witness :
    getEmbedUrl (Option.some ⟨"Inception", "tt1375666", "movie"⟩) "veryunknown"
      = "https://vidsrc.to/embed/movie/" ++ "tt1375666" :=
  getEmbedUrl_unknown_source_fallback "veryunknown"
    ⟨"Inception", "tt1375666", "movie"⟩ (by decide) (by decide)

/-- C5 counterexample: the request URL built for a concrete title and
source carries the source id but none of the type, season or episode query
parameters the HTTP contract lists. -/
theorem extractStreamRequestUrl_params_cex :
    extractStreamRequestUrl "tt1375666" "vidsrc.me"
        = "http://127.0.0.1:8000/api/extract-stream/tt1375666?source=vidsrc.me"
    ∧ strContains (extractStreamRequestUrl "tt1375666" "vidsrc.me") "source=" = true
    ∧ strContains (extractStreamRequestUrl "tt1375666" "vidsrc.me") "type=" = false
    ∧ strContains (extractStreamRequestUrl "tt1375666" "vidsrc.me") "season=" = false
    ∧ strContains (extractStreamRequestUrl "tt1375666" "vidsrc.me") "episode=" = false := by
  refine ⟨by decide, by decide, by decide, by decide, by decide⟩

/-- C5 amended: every stream-extraction request targets the
extract-stream path for the title and carries exactly one query parameter,
the source id; the media type and the season and episode coordinates are
not sent. Stated for every title id free of question marks and every source
id free of ampersands: the query keys of the built URL are exactly the one
key source. -/
theorem extractStreamRequestUrl_source_only (imdbId src : String)
    (h1 : '?' ∉ imdbId.data) (h2 : '&' ∉ src.data) :
    queryKeys (extractStreamRequestUrl imdbId src) = ["source".data] := by
  have hdata : (extractStreamRequestUrl imdbId src).data
      = (API_URL.data ++ ("/api/extract-stream/".data ++ imdbId.data))
        ++ ("?source=".data ++ src.data) := by
    simp [extractStreamRequestUrl, String.data_append]
  have hq : '?' ∉ (API_URL.data ++ ("/api/extract-stream/".data ++ imdbId.data)) := by
    intro hmem
    rcases List.mem_append.mp hmem with h | h
    · exact absurd h (by decide)
    rcases List.mem_append.mp h with h | h
    · exact absurd h (by decide)
    · exact h1 h
  have hsplit : "?source=".data ++ src.data = '?' :: ("source=".data ++ src.data) := rfl
  have hamp : '&' ∉ ("source=".data ++ src.data) := by
    intro hmem
    rcases List.mem_append.mp hmem with h | h
    · exact absurd h (by decide)
    · exact h2 h
  unfold queryKeys
  rw [hdata, afterQ_skip _ _ hq, hsplit]
  have hqq : afterQ ('?' :: ("source=".data ++ src.data))
      = "source=".data ++ src.data := by simp [afterQ]
  rw [hqq, splitAmp_no_amp _ hamp]
  have hkey : "source=".data ++ src.data = "source".data ++ '=' :: src.data := rfl
  simp only [List.map_cons, List.map_nil, hkey]
  rw [keyOf_append _ _ (by decide)]

/-- C5 amended witness: the concrete request for tt1375666 on vidsrc.me
has source as its only query key. -/
theorem extractStreamRequestUrl_source_only_witness :
    queryKeys (extractStreamRequestUrl "tt1375666" "vidsrc.me") = ["source".data] :=
  extractStreamRequestUrl_source_only "tt1375666" "vidsrc.me" (by decide) (by decide)

/-- C6 counterexample: for the source 2embed.cc a tv title does not get an
episode-parameterized template: the URL is the identifier-only template,
identical to the one a movie title gets, and carries no season or episode
coordinates. -/
theorem getEmbedUrl_2embed_tv_cex :
    getEmbedUrl (Option.some ⟨"Game of Thrones", "tt0944947", "tv"⟩) "2embed.cc"
        = "https://www.2embed.cc/embed/tt0944947"
    ∧ getEmbedUrl (Option.some ⟨"Game of Thrones", "tt0944947", "tv"⟩) "2embed.cc"
        = getEmbedUrl (Option.some ⟨"Game of Thrones", "tt0944947", "movie"⟩) "2embed.cc"
    ∧ episodeParameterized
        (getEmbedUrl (Option.some ⟨"Game of Thrones", "tt0944947", "tv"⟩) "2embed.cc")
      = false := by
  refine ⟨by decide, by decide, by decide⟩

/-- C6 amended: for each of the five known source ids and any selected
title with a non-empty imdb_id, getEmbedUrl returns the embed URL of that
source containing the imdb_id; for vidsrc.to, vidsrc.me, embed.su and
smashystream a tv title gets the episode-parameterized template and other
titles the movie template, while 2embed.cc uses one identifier-only
template for both media types. -/
theorem getEmbedUrl_known_sources (m : Movie) (hm : m.imdb_id ≠ "") :
    (∀ sourceId ∈ knownSourceIds,
        strContains (getEmbedUrl (Option.some m) sourceId) m.imdb_id = true)
    ∧ (m.type = "tv" →
        ∀ sourceId ∈ (["vidsrc.to", "vidsrc.me", "embed.su", "smashystream"] : List String),
          episodeParameterized (getEmbedUrl (Option.some m) sourceId) = true)
    ∧ (m.type ≠ "tv" →
        getEmbedUrl (Option.some m) "vidsrc.to"
            = "https://vidsrc.to/embed/movie/" ++ m.imdb_id
        ∧ getEmbedUrl (Option.some m) "vidsrc.me"
            = "https://vidsrc.me/embed/movie?imdb=" ++ m.imdb_id
        ∧ getEmbedUrl (Option.some m) "embed.su"
            = "https://embed.su/embed/movie/" ++ m.imdb_id
        ∧ getEmbedUrl (Option.some m) "smashystream"
            = "https://player.smashy.stream/movie/" ++ m.imdb_id)
    ∧ getEmbedUrl (Option.some ⟨m.title, m.imdb_id, "tv"⟩) "2embed.cc"
        = getEmbedUrl (Option.some ⟨m.title, m.imdb_id, "movie"⟩) "2embed.cc" := by
  refine ⟨?_, ?_, ?_, ?_⟩
  · intro sourceId hs
    simp only [knownSourceIds, streamingSources, List.map_cons, List.map_nil,
      List.mem_cons, List.not_mem_nil, or_false] at hs
    rcases hs with rfl | rfl | rfl | rfl | rfl <;>
      by_cases htv : m.type = "tv" <;>
        simp [getEmbedUrl, hm, htv] <;>
        first
          | exact strContains_append_mid _ _ _
          | exact strContains_append_end _ _
  · intro htv sourceId hs
    simp only [List.mem_cons, List.not_mem_nil, or_false] at hs
    rcases hs with rfl | rfl | rfl | rfl
    · simp only [episodeParameterized, Bool.or_eq_true]
      refine Or.inl (Or.inr ?_)
      simp [getEmbedUrl, hm, htv]
      exact strContains_append_right _ _ _ (by decide)
    · simp only [episodeParameterized, Bool.or_eq_true]
      refine Or.inl (Or.inl ?_)
      simp [getEmbedUrl, hm, htv]
      exact strContains_append_right _ _ _ (by decide)
    · simp only [episodeParameterized, Bool.or_eq_true]
      refine Or.inl (Or.inr ?_)
      simp [getEmbedUrl, hm, htv]
      exact strContains_append_right _ _ _ (by decide)
    · simp only [episodeParameterized, Bool.or_eq_true]
      refine Or.inr ?_
      simp [getEmbedUrl, hm, htv]
      exact strContains_append_right _ _ _ (by decide)
  · intro htv
    refine ⟨?_, ?_, ?_, ?_⟩ <;> simp [getEmbedUrl, hm, htv]
  · simp [getEmbedUrl, hm]

/-- C6 amended witness: a concrete tv title on vidsrc.me has its imdb id in
the URL and on vidsrc.to gets the episode-parameterized shape; a concrete
movie title on vidsrc.me gets the movie template; the 2embed.cc URL of the
tv title is media-type independent. -/
theorem getEmbedUrl_known_sources_witness :
    strContains
        (getEmbedUrl (Option.some ⟨"Game of Thrones", "tt0944947", "tv"⟩) "vidsrc.me")
        "tt0944947" = true
    ∧ episodeParameterized
        (getEmbedUrl (Option.some ⟨"Game of Thrones", "tt0944947", "tv"⟩) "vidsrc.to") = true
    ∧ getEmbedUrl (Option.some ⟨"Inception", "tt1375666", "movie"⟩) "vidsrc.me"
        = "https://vidsrc.me/embed/movie?imdb=" ++ "tt1375666"
    ∧ getEmbedUrl (Option.some ⟨"Game of Thrones", "tt0944947", "tv"⟩) "2embed.cc"
        = getEmbedUrl (Option.some ⟨"Game of Thrones", "tt0944947", "movie"⟩) "2embed.cc" :=
  ⟨(getEmbedUrl_known_sources ⟨"Game of Thrones", "tt0944947", "tv"⟩ (by decide)).1
      "vidsrc.me" (by decide),
   (getEmbedUrl_known_sources ⟨"Game of Thrones", "tt0944947", "tv"⟩ (by decide)).2.1
      rfl "vidsrc.to" (by decide),
   ((getEmbedUrl_known_sources ⟨"Inception", "tt1375666", "movie"⟩ (by decide)).2.2.1
      (by decide)).2.1,
   (getEmbedUrl_known_sources ⟨"Game of Thrones", "tt0944947", "tv"⟩ (by decide)).2.2.2⟩

end LonelyMovie
